import Mathlib

/-!
Shallow embedding of the Go_Logger_Application repository.

The repository contains two backend variants of the same dashboard:
an in-memory one (`src/backend/main.go`, namespace `Backend` below) and a
SQLite-backed one (`database.go` / its `main.go`, namespaces `Dash` and
`DB` below).  Timestamps are modelled as `Int` seconds (Go's zero
`time.Time` is the integer 0); Go's `Format "15:04"` label strings are
modelled by the injectively corresponding minute-of-day number.
-/

set_option maxRecDepth 4000

namespace GoStr

/-- Go `strings.ToLower`, faithful on the ASCII rule names used here. -/
def toLower (s : String) : String := String.mk (s.data.map Char.toLower)

/-- Substring test on character lists: some suffix of `s` starts with `pat`. -/
def containsAux : List Char → List Char → Bool
  | [], pat => pat.isEmpty
  | c :: rest, pat => pat.isPrefixOf (c :: rest) || containsAux rest pat

/-- Go `strings.Contains s pat`. -/
def contains (s pat : String) : Bool := containsAux s.data pat.data

end GoStr

namespace Backend

/-- `LogEntry` of `src/backend/main.go`. -/
structure LogEntry where
  timestamp : Int
  level : String
  message : String
  ruleName : String
  sourceIP : String
  metadata : List (String × String)
deriving DecidableEq

/-- `NotableEvent` of `src/backend/main.go`. -/
structure NotableEvent where
  id : String
  ruleName : String
  urgency : String
  category : String
  sourceIP : String
  destination : String
  count : Nat
  timestamp : Int
  description : String
deriving DecidableEq

/-- The fixed `mockEvents` seed slice; its timestamps are offsets from the
process start time `t0` (`time.Now()` at package initialisation). -/
def mockEvents (t0 : Int) : List NotableEvent :=
  [ ⟨"1", "Suspicious Login Attempt", "critical", "access", "192.168.1.100", "", 45, t0 - 7200, ""⟩,
    ⟨"2", "Data Exfiltration Detected", "high", "threat", "10.0.0.50", "", 23, t0 - 3600, ""⟩,
    ⟨"3", "Unusual Network Traffic", "medium", "network", "172.16.0.25", "", 67, t0 - 1800, ""⟩,
    ⟨"4", "Privilege Escalation", "critical", "access", "192.168.1.101", "", 12, t0 - 900, ""⟩,
    ⟨"5", "Malware Detection", "high", "threat", "10.0.0.51", "", 34, t0 - 600, ""⟩,
    ⟨"6", "Anomalous User Behavior", "medium", "uba", "172.16.0.26", "", 89, t0 - 300, ""⟩,
    ⟨"7", "Brute Force Attack", "critical", "access", "192.168.1.102", "", 156, t0 - 120, ""⟩,
    ⟨"8", "Data Breach Attempt", "high", "threat", "10.0.0.52", "", 78, t0 - 60, ""⟩ ]

/-- The fallback conversion each handler performs when the store is empty:
`mockEvents` mapped to `LogEntry` values. -/
def mockSource (t0 : Int) : List LogEntry :=
  (mockEvents t0).map (fun e =>
    ⟨e.timestamp, "INFO", e.description, e.ruleName, e.sourceIP, []⟩)

/-- The `source` slice every aggregation handler works on: the copied store
if non-empty, otherwise the converted `mockEvents`. -/
def sourceOf (t0 : Int) (logs : List LogEntry) : List LogEntry :=
  if logs.isEmpty then mockSource t0 else logs

/-- The category-lookup loop over `mockEvents` (`cat := ""`; first rule-name
match wins) used by `summaryStatsHandler`, `timelineDataHandler` and
`topSourcesHandler`. -/
def findCategory : List NotableEvent → String → String
  | [], _ => ""
  | me :: rest, r => if me.ruleName == r then me.category else findCategory rest r

/-- The urgency-lookup loop over `mockEvents` (`urgency := "medium"`; first
rule-name match wins) used by `urgencyDataHandler` and `topEventsHandler`. -/
def findUrgency : List NotableEvent → String → String
  | [], _ => "medium"
  | me :: rest, r => if me.ruleName == r then me.urgency else findUrgency rest r

/-- `StatTile` of `src/backend/main.go`. -/
structure StatTile where
  total : Nat
  delta : Nat
deriving DecidableEq

/-- `SummaryStats` of `src/backend/main.go`. -/
structure SummaryStats where
  accessNotables : StatTile
  networkNotables : StatTile
  threatNotables : StatTile
  ubaNotables : StatTile
deriving DecidableEq

/-- The per-category counting loop of `summaryStatsHandler`. -/
def summaryCountsOf (t0 : Int) (src : List LogEntry) : SummaryStats :=
  { accessNotables :=
      ⟨src.countP (fun l => findCategory (mockEvents t0) l.ruleName == "access"), 0⟩
    networkNotables :=
      ⟨src.countP (fun l => findCategory (mockEvents t0) l.ruleName == "network"), 0⟩
    threatNotables :=
      ⟨src.countP (fun l => findCategory (mockEvents t0) l.ruleName == "threat"), 0⟩
    ubaNotables :=
      ⟨src.countP (fun l => findCategory (mockEvents t0) l.ruleName == "uba"), 0⟩ }

/-- `summaryStatsHandler` of `src/backend/main.go`. -/
def summaryStatsHandler (t0 : Int) (logs : List LogEntry) : SummaryStats :=
  summaryCountsOf t0 (sourceOf t0 logs)

/-- `UrgencyData` of `src/backend/main.go`. -/
structure UrgencyData where
  critical : Nat
  high : Nat
  medium : Nat
  low : Nat
deriving DecidableEq

/-- The per-tier counting loop of `urgencyDataHandler`: each entry is counted
under the urgency looked up from `mockEvents` by its rule name. -/
def urgencyCountsOf (t0 : Int) (src : List LogEntry) : UrgencyData :=
  { critical := src.countP (fun l => findUrgency (mockEvents t0) l.ruleName == "critical")
    high := src.countP (fun l => findUrgency (mockEvents t0) l.ruleName == "high")
    medium := src.countP (fun l => findUrgency (mockEvents t0) l.ruleName == "medium")
    low := src.countP (fun l => findUrgency (mockEvents t0) l.ruleName == "low") }

/-- `urgencyDataHandler` of `src/backend/main.go` (note: it applies no
timestamp filter). -/
def urgencyDataHandler (t0 : Int) (logs : List LogEntry) : UrgencyData :=
  urgencyCountsOf t0 (sourceOf t0 logs)

/-- Sum of the four histogram tiers. -/
def urgencySum (d : UrgencyData) : Nat := d.critical + d.high + d.medium + d.low

/-- Go `Format "15:04"` rendered as the minute-of-day of the instant. -/
def hhmm (t : Int) : Int := t % 86400 / 60

/-- One timeline bucket: its hour label together with access, network and
threat counts over the entries whose formatted timestamp equals the label. -/
def timelineBucket (t0 : Int) (src : List LogEntry) (label : Int) : Int × Nat × Nat × Nat :=
  (label,
   src.countP (fun l => hhmm l.timestamp == label &&
     findCategory (mockEvents t0) l.ruleName == "access"),
   src.countP (fun l => hhmm l.timestamp == label &&
     findCategory (mockEvents t0) l.ruleName == "network"),
   src.countP (fun l => hhmm l.timestamp == label &&
     findCategory (mockEvents t0) l.ruleName == "threat"))

/-- The label of bucket `j` (bucket 0 is the oldest, 23 hours back). -/
def labelAt (now : Int) (j : Nat) : Int := hhmm (now - (23 - (j : Int)) * 3600)

/-- The 24-bucket loop of `timelineDataHandler` (`for i := 23; i >= 0; i--`). -/
def timelineBuckets (t0 now : Int) (src : List LogEntry) : List (Int × Nat × Nat × Nat) :=
  (List.range 24).map (fun j => timelineBucket t0 src (labelAt now j))

/-- `timelineDataHandler` of `src/backend/main.go`. -/
def timelineDataHandler (t0 now : Int) (logs : List LogEntry) : List (Int × Nat × Nat × Nat) :=
  timelineBuckets t0 now (sourceOf t0 logs)

/-- Sum of all bucket counts over the 24 labels and 3 category series. -/
def timelineTotal (bs : List (Int × Nat × Nat × Nat)) : Nat :=
  (bs.map (fun b => b.2.1 + b.2.2.1 + b.2.2.2)).sum

/-- `TopEvent` of `src/backend/main.go`. -/
structure TopEvent where
  ruleName : String
  sparkline : List Nat
  count : Nat
  urgency : String
deriving DecidableEq

/-- `TopSource` of `src/backend/main.go`. -/
structure TopSource where
  sourceIP : String
  sparkline : List Nat
  count : Nat
  category : String
deriving DecidableEq

/-- The sparkline loop: ten values `count/10 + rand.Intn(5)`; the random
source is modelled by the injected draw function. -/
def sparklineOf (count : Nat) (draw : Nat → Nat) : List Nat :=
  (List.range 10).map (fun i => count / 10 + draw i)

/-- The grouping loop of `topEventsHandler` in `src/backend/main.go`: group
the considered entries by rule name, attach the occurrence count, a sparkline
and the urgency looked up from `mockEvents` for the key.  Go iterates the
grouping map in unspecified order and applies no sort and no cap; the
embedding emits one element per distinct rule name (in `dedup` order, one
deterministic rendering of the unspecified map order). -/
def topEventsOf (t0 : Int) (draw : String → Nat → Nat)
    (src : List LogEntry) : List TopEvent :=
  ((src.map (fun l => l.ruleName)).dedup).map (fun r =>
    { ruleName := r
      sparkline := sparklineOf (src.countP (fun l => l.ruleName == r)) (draw r)
      count := src.countP (fun l => l.ruleName == r)
      urgency := findUrgency (mockEvents t0) r })

/-- `topEventsHandler` applied to the store (or its fallback). -/
def topEventsHandler (t0 : Int) (draw : String → Nat → Nat)
    (logs : List LogEntry) : List TopEvent :=
  topEventsOf t0 draw (sourceOf t0 logs)

/-- The rule name of the first source entry with the given source IP (used by
`topSourcesHandler` to fix the category of a source key when first seen). -/
def firstRuleOf (src : List LogEntry) (ip : String) : String :=
  ((src.find? (fun l => l.sourceIP == ip)).map (fun l => l.ruleName)).getD ""

/-- The grouping loop of `topSourcesHandler` in `src/backend/main.go`: group
by source IP; the category is the `mockEvents` lookup of the first entry seen
for that IP.  As with the top-events grouping, no sort and no cap. -/
def topSourcesOf (t0 : Int) (draw : String → Nat → Nat)
    (src : List LogEntry) : List TopSource :=
  ((src.map (fun l => l.sourceIP)).dedup).map (fun ip =>
    { sourceIP := ip
      sparkline := sparklineOf (src.countP (fun l => l.sourceIP == ip)) (draw ip)
      count := src.countP (fun l => l.sourceIP == ip)
      category := findCategory (mockEvents t0) (firstRuleOf src ip) })

/-- `topSourcesHandler` applied to the store (or its fallback). -/
def topSourcesHandler (t0 : Int) (draw : String → Nat → Nat)
    (logs : List LogEntry) : List TopSource :=
  topSourcesOf t0 draw (sourceOf t0 logs)

/-- The normalisation `logIngestHandler` applies to a decoded entry before
appending: a zero timestamp becomes the ingestion time, an empty level
becomes `"INFO"` (the nil-metadata fill is the identity in this model). -/
def normalizeEntry (now : Int) (e : LogEntry) : LogEntry :=
  let e1 := if e.timestamp = 0 then { e with timestamp := now } else e
  if e1.level = "" then { e1 with level := "INFO" } else e1

/-- Reachable store states: the empty store, grown only by `logIngestHandler`
appends of normalised entries.  The ingestion instant `time.Now()` is never
Go's zero time, hence the side condition `now ≠ 0`. -/
inductive Reachable : List LogEntry → Prop
  | nil : Reachable []
  | ingest (s : List LogEntry) (e : LogEntry) (now : Int) (hnow : now ≠ 0) :
      Reachable s → Reachable (s ++ [normalizeEntry now e])

/-- `logSearchHandler` of `src/backend/main.go`: keep an entry unless a
non-empty `ip` filter differs from its source IP (exact comparison) or a
non-empty `event` filter is not a case-insensitive substring of its rule. -/
def logSearchHandler (ip event : String) (logs : List LogEntry) : List LogEntry :=
  logs.filter (fun l =>
    (ip == "" || l.sourceIP == ip) &&
    (event == "" || GoStr.contains (GoStr.toLower l.ruleName) (GoStr.toLower event)))

/-- `logger_logs_total` of `metricsHandler`. -/
def metricsTotal (logs : List LogEntry) : Nat := logs.length

/-- The `logger_logs_by_level` lines of `metricsHandler`: one counter per
distinct level. -/
def metricsByLevel (logs : List LogEntry) : List (String × Nat) :=
  ((logs.map (fun l => l.level)).dedup).map (fun lv =>
    (lv, logs.countP (fun l => l.level == lv)))

end Backend

namespace Dash

/-- `LogEntry` of the SQLite-backed variant's `main.go`: carries an explicit
integer urgency (1-4) and separate `rule` and `event` keys. -/
structure LogEntry where
  timestamp : Int
  level : String
  rule : String
  sourceIP : String
  destinationIP : String
  event : String
  description : String
  urgency : Int
deriving DecidableEq

/-- `getUrgencyValue` of the SQLite-backed variant's `main.go`. -/
def getUrgencyValue (u : String) : Int :=
  if u == "critical" then 4
  else if u == "high" then 3
  else if u == "medium" then 2
  else if u == "low" then 1
  else 2

/-- The fallback conversion of `mockEvents` used by the in-memory handlers of
the SQLite-backed variant's `main.go`. -/
def mockSource (t0 : Int) : List LogEntry :=
  (Backend.mockEvents t0).map (fun e =>
    ⟨e.timestamp, "INFO", e.ruleName, e.sourceIP, e.destination, e.ruleName,
     e.description, getUrgencyValue e.urgency⟩)

/-- `urgencyDataHandler` of the SQLite-backed variant's `main.go`: the same
seed-list urgency lookup by rule name (default `"medium"`) as the in-memory
backend; the entry's own `urgency` field is never read. -/
def urgencyDataHandler (t0 : Int) (logs : List LogEntry) : Backend.UrgencyData :=
  let src := if logs.isEmpty then mockSource t0 else logs
  { critical := src.countP (fun l =>
      Backend.findUrgency (Backend.mockEvents t0) l.rule == "critical")
    high := src.countP (fun l =>
      Backend.findUrgency (Backend.mockEvents t0) l.rule == "high")
    medium := src.countP (fun l =>
      Backend.findUrgency (Backend.mockEvents t0) l.rule == "medium")
    low := src.countP (fun l =>
      Backend.findUrgency (Backend.mockEvents t0) l.rule == "low") }

end Dash

namespace DB

/-- The rule-name categorisation switch of `Database.GetSummaryStats`
(case-insensitive substring checks in a fixed priority order with an
explicit `access` fallback). -/
def categoryOf (rule : String) : String :=
  let r := GoStr.toLower rule
  if GoStr.contains r "login" || GoStr.contains r "access" then "access"
  else if GoStr.contains r "network" || GoStr.contains r "traffic" then "network"
  else if GoStr.contains r "threat" || GoStr.contains r "malware" then "threat"
  else if GoStr.contains r "behavior" || GoStr.contains r "uba" then "uba"
  else "access"

/-- `Database.GetSummaryStats`: the SQL `SELECT rule FROM logs` rows folded
through the categorisation switch. -/
def GetSummaryStats (logs : List Dash.LogEntry) : Backend.SummaryStats :=
  { accessNotables := ⟨logs.countP (fun l => categoryOf l.rule == "access"), 0⟩
    networkNotables := ⟨logs.countP (fun l => categoryOf l.rule == "network"), 0⟩
    threatNotables := ⟨logs.countP (fun l => categoryOf l.rule == "threat"), 0⟩
    ubaNotables := ⟨logs.countP (fun l => categoryOf l.rule == "uba"), 0⟩ }

/-- `Database.GetUrgencyData`: rows of the trailing 24 hours grouped by the
stored `urgency` column; tiers 4/3/2/1, other values ignored. -/
def GetUrgencyData (now : Int) (logs : List Dash.LogEntry) : Backend.UrgencyData :=
  let recent := logs.filter (fun l => now - 86400 ≤ l.timestamp)
  { critical := recent.countP (fun l => l.urgency == 4)
    high := recent.countP (fun l => l.urgency == 3)
    medium := recent.countP (fun l => l.urgency == 2)
    low := recent.countP (fun l => l.urgency == 1) }

/-- `Database.GetTopEvents`: group by `event`, order by count descending,
keep ten rows, attach a sparkline and the fixed `"medium"` urgency. -/
def GetTopEvents (draw : String → Nat → Nat) (logs : List Dash.LogEntry) :
    List Backend.TopEvent :=
  let keys := (logs.map (fun l => l.event)).dedup
  let grouped := keys.map (fun k => (k, logs.countP (fun l => l.event == k)))
  let sorted := grouped.mergeSort (fun a b => decide (b.2 ≤ a.2))
  (sorted.take 10).map (fun kc =>
    { ruleName := kc.1
      sparkline := Backend.sparklineOf kc.2 (draw kc.1)
      count := kc.2
      urgency := "medium" })

/-- `Database.GetTopSources`: group by `source_ip`, order by count
descending, keep ten rows (no sparkline or category is filled in). -/
def GetTopSources (logs : List Dash.LogEntry) : List Backend.TopSource :=
  let keys := (logs.map (fun l => l.sourceIP)).dedup
  let grouped := keys.map (fun k => (k, logs.countP (fun l => l.sourceIP == k)))
  let sorted := grouped.mergeSort (fun a b => decide (b.2 ≤ a.2))
  (sorted.take 10).map (fun kc =>
    { sourceIP := kc.1
      sparkline := []
      count := kc.2
      category := "" })

end DB

/-- A concrete ingested entry whose rule name is part of the seed list. -/
def sampleEntry : Backend.LogEntry :=
  ⟨100, "INFO", "", "Suspicious Login Attempt", "192.168.1.100", []⟩

/-- A concrete entry whose timestamp (827380) lies 48 hours before the
concrete call time 1000180 used in the counterexamples. -/
def sampleOld : Backend.LogEntry := ⟨827380, "INFO", "", "zzz", "1.2.3.4", []⟩

/-- Like `sampleOld` but with a rule name the seed list categorises. -/
def sampleOldLogin : Backend.LogEntry :=
  ⟨827380, "INFO", "", "Suspicious Login Attempt", "1.2.3.4", []⟩

/-- A concrete entry of the SQLite-backed variant carrying the explicit
urgency 4 (critical) and a rule name outside the seed list. -/
def sampleDash : Dash.LogEntry := ⟨100, "INFO", "zzz", "1.1.1.1", "", "zzz", "", 4⟩

/-- Eleven entries with eleven distinct rule names. -/
def elevenLogs : List Backend.LogEntry :=
  [ ⟨100, "INFO", "", "r1", "9.9.9.9", []⟩,
    ⟨100, "INFO", "", "r2", "9.9.9.9", []⟩,
    ⟨100, "INFO", "", "r3", "9.9.9.9", []⟩,
    ⟨100, "INFO", "", "r4", "9.9.9.9", []⟩,
    ⟨100, "INFO", "", "r5", "9.9.9.9", []⟩,
    ⟨100, "INFO", "", "r6", "9.9.9.9", []⟩,
    ⟨100, "INFO", "", "r7", "9.9.9.9", []⟩,
    ⟨100, "INFO", "", "r8", "9.9.9.9", []⟩,
    ⟨100, "INFO", "", "r9", "9.9.9.9", []⟩,
    ⟨100, "INFO", "", "r10", "9.9.9.9", []⟩,
    ⟨100, "INFO", "", "r11", "9.9.9.9", []⟩ ]

/-- The single top-event row produced for the store `[sampleEntry]` under the
constant-zero random source. -/
def sampleTop : Backend.TopEvent :=
  ⟨"Suspicious Login Attempt", Backend.sparklineOf 1 (fun _ => 0), 1, "critical"⟩

/-! ### Helper lemmas -/

/-- When the store is non-empty every handler works on the store itself. -/
theorem sourceOf_of_ne_nil (t0 : Int) {logs : List Backend.LogEntry} (h : logs ≠ []) :
    Backend.sourceOf t0 logs = logs := by
  simp [Backend.sourceOf, h]

/-- When the store is empty every handler works on the converted seed set. -/
theorem sourceOf_nil (t0 : Int) : Backend.sourceOf t0 [] = Backend.mockSource t0 := rfl

/-- The urgency looked up from the seed list is one of the three urgency
strings the seed list carries, or the `"medium"` default. -/
theorem findUrgency_mock_cases (t0 : Int) (r : String) :
    Backend.findUrgency (Backend.mockEvents t0) r = "critical" ∨
    Backend.findUrgency (Backend.mockEvents t0) r = "high" ∨
    Backend.findUrgency (Backend.mockEvents t0) r = "medium" := by
  simp only [Backend.mockEvents, Backend.findUrgency]
  repeat' split
  all_goals simp

/-- The in-memory urgency histogram counts every considered entry exactly
once: the four tier counters sum to the number of considered entries. -/
theorem urgencySum_counts (t0 : Int) (src : List Backend.LogEntry) :
    Backend.urgencySum (Backend.urgencyCountsOf t0 src) = src.length := by
  have d1 : ("critical" : String) ≠ "high" := by decide
  have d2 : ("critical" : String) ≠ "medium" := by decide
  have d3 : ("critical" : String) ≠ "low" := by decide
  have d4 : ("high" : String) ≠ "critical" := by decide
  have d5 : ("high" : String) ≠ "medium" := by decide
  have d6 : ("high" : String) ≠ "low" := by decide
  have d7 : ("medium" : String) ≠ "critical" := by decide
  have d8 : ("medium" : String) ≠ "high" := by decide
  have d9 : ("medium" : String) ≠ "low" := by decide
  induction src with
  | nil => rfl
  | cons e s ih =>
    rcases findUrgency_mock_cases t0 e.ruleName with h | h | h <;>
      simp [Backend.urgencySum, Backend.urgencyCountsOf, List.countP_cons, h,
        d1, d2, d3, d4, d5, d6, d7, d8, d9] at ih ⊢
    all_goals omega

/-- Four pairwise-exclusive integer tests count each element at most once. -/
theorem countP_four_tiers_le {α : Type} (u : α → Int) (l : List α) :
    l.countP (fun x => u x == 4) + l.countP (fun x => u x == 3) +
      l.countP (fun x => u x == 2) + l.countP (fun x => u x == 1) ≤ l.length := by
  induction l with
  | nil => simp
  | cons a s ih =>
    simp only [List.countP_cons, List.length_cons]
    by_cases v4 : u a = 4 <;> by_cases v3 : u a = 3 <;> by_cases v2 : u a = 2 <;>
      by_cases v1 : u a = 1 <;> simp [v4, v3, v2, v1]
    all_goals omega

/-- Pointwise sums of mapped lists split. -/
theorem sum_map_add_nat {β : Type} (l : List β) (f g : β → Nat) :
    (l.map (fun x => f x + g x)).sum = (l.map f).sum + (l.map g).sum := by
  induction l with
  | nil => rfl
  | cons a s ih => simp [ih]; omega

/-- Summing the indicator of a value over a list counts its occurrences. -/
theorem sum_map_ind_count (labels : List Int) (v : Int) :
    (labels.map (fun lb => if v == lb then 1 else 0)).sum = labels.count v := by
  induction labels with
  | nil => rfl
  | cons a s ih =>
    simp only [List.map_cons, List.sum_cons, List.count_cons, ih]
    by_cases h : v = a
    · simp [h, Nat.add_comm]
    · have h' : ¬(a = v) := fun hh => h hh.symm
      simp [h, h']

/-- A string equals at most one of the three category literals. -/
theorem cat_ind_le_one (c : String) :
    (if c = "access" then (1 : Nat) else 0) + (if c = "network" then 1 else 0) +
      (if c = "threat" then 1 else 0) ≤ 1 := by
  by_cases h1 : c = "access" <;> by_cases h2 : c = "network" <;> by_cases h3 : c = "threat" <;>
    simp [h1, h2, h3]

/-- Key lemma for the timeline bound: over a duplicate-free label list, the
three per-category per-label counts sum to at most the number of entries
(each entry can match at most one label and carries at most one of the three
counted categories). -/
theorem sum_three_cat_counts_le {α : Type} (labels : List Int) (hnd : labels.Nodup)
    (key : α → Int) (cat : α → String) (src : List α) :
    (labels.map (fun lb =>
      src.countP (fun e => key e == lb && cat e == "access") +
        src.countP (fun e => key e == lb && cat e == "network") +
        src.countP (fun e => key e == lb && cat e == "threat"))).sum ≤ src.length := by
  induction src with
  | nil => simp
  | cons a s ih =>
    have hsplit :
        (labels.map (fun lb =>
          (a :: s).countP (fun e => key e == lb && cat e == "access") +
            (a :: s).countP (fun e => key e == lb && cat e == "network") +
            (a :: s).countP (fun e => key e == lb && cat e == "threat"))).sum =
        (labels.map (fun lb =>
          s.countP (fun e => key e == lb && cat e == "access") +
            s.countP (fun e => key e == lb && cat e == "network") +
            s.countP (fun e => key e == lb && cat e == "threat"))).sum +
        (labels.map (fun lb =>
          (if key a == lb && cat a == "access" then (1 : Nat) else 0) +
            (if key a == lb && cat a == "network" then 1 else 0) +
            (if key a == lb && cat a == "threat" then 1 else 0))).sum := by
      rw [← sum_map_add_nat]
      apply congrArg List.sum
      apply List.map_congr_left
      intro lb _
      simp only [List.countP_cons]
      omega
    have hbound :
        (labels.map (fun lb =>
          (if key a == lb && cat a == "access" then (1 : Nat) else 0) +
            (if key a == lb && cat a == "network" then 1 else 0) +
            (if key a == lb && cat a == "threat" then 1 else 0))).sum ≤
        (labels.map (fun lb => if key a == lb then (1 : Nat) else 0)).sum := by
      apply List.sum_le_sum
      intro lb _
      by_cases hk : key a = lb
      · have h3 := cat_ind_le_one (cat a)
        simp [hk]
        omega
      · have hkb : (key a == lb) = false := by simp [hk]
        simp [hkb]
    have hcount : (labels.map (fun lb => if key a == lb then (1 : Nat) else 0)).sum ≤ 1 := by
      rw [sum_map_ind_count]
      exact List.nodup_iff_count_le_one.1 hnd (key a)
    rw [hsplit]
    simp only [List.length_cons]
    omega

/-- The 24 hourly labels of one timeline call are pairwise distinct. -/
theorem labelAt_inj (now : Int) {i j : Nat} (hi : i < 24) (hj : j < 24)
    (h : Backend.labelAt now i = Backend.labelAt now j) : i = j := by
  simp only [Backend.labelAt, Backend.hhmm] at h
  omega

/-- The label list of one timeline call has no duplicates. -/
theorem labels_nodup (now : Int) :
    (((List.range 24).map (Backend.labelAt now))).Nodup := by
  apply List.Nodup.map_on
  · intro i hi j hj hij
    exact labelAt_inj now (List.mem_range.1 hi) (List.mem_range.1 hj) hij
  · exact List.nodup_range 24

/-- The timeline bucket counts, over all 24 labels and 3 category series, sum
to at most the number of considered entries. -/
theorem timelineTotal_le_length (t0 now : Int) (src : List Backend.LogEntry) :
    Backend.timelineTotal (Backend.timelineBuckets t0 now src) ≤ src.length := by
  have h := sum_three_cat_counts_le ((List.range 24).map (Backend.labelAt now))
    (labels_nodup now) (fun l => Backend.hhmm l.timestamp)
    (fun l => Backend.findCategory (Backend.mockEvents t0) l.ruleName) src
  simpa [Backend.timelineTotal, Backend.timelineBuckets, Backend.timelineBucket,
    List.map_map, Function.comp] using h

/-- `mergeSort` by descending count yields a pairwise-descending list. -/
theorem pairwise_desc_mergeSort (l : List (String × Nat)) :
    (l.mergeSort (fun a b => decide (b.2 ≤ a.2))).Pairwise
      (fun a b => (decide (b.2 ≤ a.2)) = true) :=
  List.sorted_mergeSort
    (fun a b c h1 h2 => by
      simp only [decide_eq_true_eq] at h1 h2 ⊢
      omega)
    (fun a b => by
      simp only [Bool.or_eq_true, decide_eq_true_eq]
      omega)
    l

/-- The ten retained rows of a descending sort are pairwise descending. -/
theorem pairwise_desc_take (l : List (String × Nat)) :
    ((l.mergeSort (fun a b => decide (b.2 ≤ a.2))).take 10).Pairwise
      (fun a b => b.2 ≤ a.2) :=
  (List.Pairwise.sublist (List.take_sublist 10 _) (pairwise_desc_mergeSort l)).imp
    (fun h => of_decide_eq_true h)

/-- The seed-list category lookup returns the empty default for any rule
name that no seed entry carries. -/
theorem findCategory_not_found (events : List Backend.NotableEvent) (r : String)
    (h : r ∉ events.map (fun me => me.ruleName)) :
    Backend.findCategory events r = "" := by
  induction events with
  | nil => rfl
  | cons me rest ih =>
    simp only [List.map_cons, List.mem_cons, not_or] at h
    have hne : (me.ruleName == r) = false := by
      simp only [beq_eq_false_iff_ne, ne_eq]
      exact fun hh => h.1 hh.symm
    simp [Backend.findCategory, hne, ih h.2]

/-! ### Claim theorems -/

/-- C1 counterexample: the in-memory TopEvents result is not capped at 10 —
a store with eleven distinct rule names yields eleven entries. -/
theorem c1_counterexample :
    10 < (Backend.topEventsHandler 0 (fun _ _ => 0) elevenLogs).length := by decide

/-- C1 (amended): the in-memory TopEvents/TopSources contain exactly one
entry per distinct rule name / source IP of the considered entries, each
carrying its occurrence count, with no cap and no guaranteed order; only the
DB-backed variants are capped at 10 and ordered (non-strictly) descending by
count. -/
theorem c1_top_lists_amended :
    ∀ (t0 : Int) (draw : String → Nat → Nat) (logs : List Backend.LogEntry),
      (Backend.topEventsHandler t0 draw logs).length =
        ((Backend.sourceOf t0 logs).map (fun l => l.ruleName)).dedup.length ∧
      (∀ te ∈ Backend.topEventsHandler t0 draw logs,
        te.count = (Backend.sourceOf t0 logs).countP (fun l => l.ruleName == te.ruleName)) ∧
      (Backend.topSourcesHandler t0 draw logs).length =
        ((Backend.sourceOf t0 logs).map (fun l => l.sourceIP)).dedup.length ∧
      (∀ ts ∈ Backend.topSourcesHandler t0 draw logs,
        ts.count = (Backend.sourceOf t0 logs).countP (fun l => l.sourceIP == ts.sourceIP)) ∧
      ∀ dlogs : List Dash.LogEntry,
        (DB.GetTopEvents draw dlogs).length ≤ 10 ∧
        (DB.GetTopEvents draw dlogs).Pairwise (fun x y => y.count ≤ x.count) ∧
        (DB.GetTopSources dlogs).length ≤ 10 ∧
        (DB.GetTopSources dlogs).Pairwise (fun x y => y.count ≤ x.count) := by
  intro t0 draw logs
  refine ⟨?_, ?_, ?_, ?_, ?_⟩
  · simp [Backend.topEventsHandler, Backend.topEventsOf]
  · intro te hte
    simp only [Backend.topEventsHandler, Backend.topEventsOf, List.mem_map] at hte
    obtain ⟨r, _, rfl⟩ := hte
    rfl
  · simp [Backend.topSourcesHandler, Backend.topSourcesOf]
  · intro ts hts
    simp only [Backend.topSourcesHandler, Backend.topSourcesOf, List.mem_map] at hts
    obtain ⟨ip, _, rfl⟩ := hts
    rfl
  · intro dlogs
    refine ⟨?_, ?_, ?_, ?_⟩
    · simp only [DB.GetTopEvents, List.length_map, List.length_take]
      omega
    · simp only [DB.GetTopEvents]
      refine List.pairwise_map.mpr ((pairwise_desc_take _).imp ?_)
      intro a b h
      exact h
    · simp only [DB.GetTopSources, List.length_map, List.length_take]
      omega
    · simp only [DB.GetTopSources]
      refine List.pairwise_map.mpr ((pairwise_desc_take _).imp ?_)
      intro a b h
      exact h

/-- C1 witness: for the one-entry store the single top-event row carries
count 1. -/
theorem c1_witness :
    sampleTop.count =
      (Backend.sourceOf 0 [sampleEntry]).countP (fun l => l.ruleName == sampleTop.ruleName) :=
  (c1_top_lists_amended 0 (fun _ _ => 0) [sampleEntry]).2.1 sampleTop (by decide)

/-- C2 counterexample: with an empty store the Timeline aggregation can be
all-zero — at call time 1000180 of a process started at 1000000, no seed
timestamp's formatted hour-minute matches any of the 24 labels, so every
bucket count of the fallback-fed Timeline is zero. -/
theorem c2_counterexample :
    Backend.timelineTotal (Backend.timelineDataHandler 1000000 1000180 []) = 0 := by decide

set_option maxHeartbeats 2000000 in
/-- C2 (amended): every aggregation substitutes the fallback seed set
wholesale — the considered entry set is the store when non-empty and exactly
the converted seed set when empty, never a mix; on an empty store Summary,
UrgencyHistogram, TopEvents and TopSources reflect the 8-entry seed set (and
are not all-zero), but the Timeline can still be all-zero when the call
time's minute matches no seed timestamp. -/
theorem c2_wholesale_amended :
    ∀ (t0 now : Int) (draw : String → Nat → Nat) (logs : List Backend.LogEntry),
      (logs ≠ [] →
        Backend.summaryStatsHandler t0 logs = Backend.summaryCountsOf t0 logs ∧
        Backend.urgencyDataHandler t0 logs = Backend.urgencyCountsOf t0 logs ∧
        Backend.timelineDataHandler t0 now logs = Backend.timelineBuckets t0 now logs ∧
        Backend.topEventsHandler t0 draw logs = Backend.topEventsOf t0 draw logs ∧
        Backend.topSourcesHandler t0 draw logs = Backend.topSourcesOf t0 draw logs) ∧
      (Backend.summaryStatsHandler t0 [] =
          Backend.summaryCountsOf t0 (Backend.mockSource t0) ∧
        Backend.urgencyDataHandler t0 [] =
          Backend.urgencyCountsOf t0 (Backend.mockSource t0) ∧
        Backend.timelineDataHandler t0 now [] =
          Backend.timelineBuckets t0 now (Backend.mockSource t0) ∧
        Backend.topEventsHandler t0 draw [] =
          Backend.topEventsOf t0 draw (Backend.mockSource t0) ∧
        Backend.topSourcesHandler t0 draw [] =
          Backend.topSourcesOf t0 draw (Backend.mockSource t0)) ∧
      Backend.summaryStatsHandler t0 [] = ⟨⟨3, 0⟩, ⟨1, 0⟩, ⟨3, 0⟩, ⟨1, 0⟩⟩ ∧
      Backend.urgencyDataHandler t0 [] = ⟨3, 3, 2, 0⟩ ∧
      (Backend.topEventsHandler t0 draw []).length = 8 ∧
      (Backend.topSourcesHandler t0 draw []).length = 8 := by
  intro t0 now draw logs
  refine ⟨fun h => ⟨?_, ?_, ?_, ?_, ?_⟩, ⟨rfl, rfl, rfl, rfl, rfl⟩, rfl, rfl, rfl, rfl⟩
  · simp only [Backend.summaryStatsHandler, sourceOf_of_ne_nil t0 h]
  · simp only [Backend.urgencyDataHandler, sourceOf_of_ne_nil t0 h]
  · simp only [Backend.timelineDataHandler, sourceOf_of_ne_nil t0 h]
  · simp only [Backend.topEventsHandler, sourceOf_of_ne_nil t0 h]
  · simp only [Backend.topSourcesHandler, sourceOf_of_ne_nil t0 h]

/-- C2 witness: with a one-entry store the summary is computed from the
store itself, and with an empty store the urgency histogram reflects the
seed set. -/
theorem c2_witness :
    Backend.summaryStatsHandler 0 [sampleEntry] = Backend.summaryCountsOf 0 [sampleEntry] ∧
    Backend.urgencyDataHandler 0 [] = ⟨3, 3, 2, 0⟩ :=
  ⟨((c2_wholesale_amended 0 0 (fun _ _ => 0) [sampleEntry]).1 (by decide)).1,
   (c2_wholesale_amended 0 0 (fun _ _ => 0) []).2.2.2.1⟩

/-- C3 counterexample: the in-memory urgency histogram counts an entry whose
timestamp lies 48 hours before the call time 1000180 (it lands in the
`medium` tier), although the claim requires entries older than 24 hours to
contribute to no tier. -/
theorem c3_counterexample :
    sampleOld.timestamp ≤ 1000180 - 86400 ∧
    (Backend.urgencyDataHandler 0 [sampleOld]).medium = 1 ∧
    Backend.urgencySum (Backend.urgencyDataHandler 0 [sampleOld]) = 1 := by decide

/-- C3 (amended): the in-memory urgency histogram applies no time filter —
every considered entry is counted in exactly one tier regardless of its
timestamp (the four tiers sum to the number of considered entries); only the
DB-backed histogram restricts to the trailing 24 hours before the call
time. -/
theorem c3_urgency_window_amended :
    (∀ (t0 : Int) (logs : List Backend.LogEntry),
      Backend.urgencySum (Backend.urgencyDataHandler t0 logs) =
        (Backend.sourceOf t0 logs).length) ∧
    (∀ (now : Int) (dlogs : List Dash.LogEntry),
      Backend.urgencySum (DB.GetUrgencyData now dlogs) ≤
        (dlogs.filter (fun l => now - 86400 ≤ l.timestamp)).length) := by
  constructor
  · intro t0 logs
    exact urgencySum_counts t0 (Backend.sourceOf t0 logs)
  · intro now dlogs
    simpa [DB.GetUrgencyData, Backend.urgencySum] using
      countP_four_tiers_le (fun l => l.urgency)
        (dlogs.filter (fun l => now - 86400 ≤ l.timestamp))

/-- C4 counterexample: the in-memory categorisation step is an exact
seed-list lookup with an empty default, not the substring priority order —
the rule name "custom access check" contains "access", yet the in-memory
summary counts such an entry in no category at all. -/
theorem c4_counterexample :
    GoStr.contains (GoStr.toLower "custom access check") "access" = true ∧
    Backend.summaryStatsHandler 0 [⟨100, "INFO", "", "custom access check", "1.2.3.4", []⟩] =
      ⟨⟨0, 0⟩, ⟨0, 0⟩, ⟨0, 0⟩, ⟨0, 0⟩⟩ := by decide

/-- C4 (amended): the fixed priority order — "login"/"access"
(case-insensitive) gives access regardless of other substrings; otherwise
"network"/"traffic" gives network; otherwise "threat"/"malware" gives
threat; otherwise "behavior"/"uba" gives the user-behaviour category;
otherwise access as the explicit fallback — holds for the DB-backed
categorisation switch only.  The in-memory variant instead looks the rule
name up in the seed list by exact equality with an empty-string default, so
an entry whose rule name is not in the seed list is counted in no category,
whatever substrings it contains. -/
theorem c4_category_amended :
    (∀ r : String,
      ((GoStr.contains (GoStr.toLower r) "login" ||
          GoStr.contains (GoStr.toLower r) "access") = true →
        DB.categoryOf r = "access") ∧
      ((GoStr.contains (GoStr.toLower r) "login" ||
          GoStr.contains (GoStr.toLower r) "access") = false →
        (GoStr.contains (GoStr.toLower r) "network" ||
          GoStr.contains (GoStr.toLower r) "traffic") = true →
        DB.categoryOf r = "network") ∧
      ((GoStr.contains (GoStr.toLower r) "login" ||
          GoStr.contains (GoStr.toLower r) "access") = false →
        (GoStr.contains (GoStr.toLower r) "network" ||
          GoStr.contains (GoStr.toLower r) "traffic") = false →
        (GoStr.contains (GoStr.toLower r) "threat" ||
          GoStr.contains (GoStr.toLower r) "malware") = true →
        DB.categoryOf r = "threat") ∧
      ((GoStr.contains (GoStr.toLower r) "login" ||
          GoStr.contains (GoStr.toLower r) "access") = false →
        (GoStr.contains (GoStr.toLower r) "network" ||
          GoStr.contains (GoStr.toLower r) "traffic") = false →
        (GoStr.contains (GoStr.toLower r) "threat" ||
          GoStr.contains (GoStr.toLower r) "malware") = false →
        (GoStr.contains (GoStr.toLower r) "behavior" ||
          GoStr.contains (GoStr.toLower r) "uba") = true →
        DB.categoryOf r = "uba") ∧
      ((GoStr.contains (GoStr.toLower r) "login" ||
          GoStr.contains (GoStr.toLower r) "access") = false →
        (GoStr.contains (GoStr.toLower r) "network" ||
          GoStr.contains (GoStr.toLower r) "traffic") = false →
        (GoStr.contains (GoStr.toLower r) "threat" ||
          GoStr.contains (GoStr.toLower r) "malware") = false →
        (GoStr.contains (GoStr.toLower r) "behavior" ||
          GoStr.contains (GoStr.toLower r) "uba") = false →
        DB.categoryOf r = "access")) ∧
    (∀ (t0 : Int) (r : String),
      r ∉ (Backend.mockEvents t0).map (fun me => me.ruleName) →
      Backend.findCategory (Backend.mockEvents t0) r = "") ∧
    (∀ (t0 : Int) (src : List Backend.LogEntry),
      (∀ l ∈ src, l.ruleName ∉ (Backend.mockEvents t0).map (fun me => me.ruleName)) →
      Backend.summaryCountsOf t0 src = ⟨⟨0, 0⟩, ⟨0, 0⟩, ⟨0, 0⟩, ⟨0, 0⟩⟩) := by
  refine ⟨fun r => ?_, fun t0 r h => findCategory_not_found _ r h, fun t0 src hsrc => ?_⟩
  · refine ⟨?_, ?_, ?_, ?_, ?_⟩ <;>
      intros <;> simp_all [DB.categoryOf]
  · have hzero : ∀ cat : String, cat ≠ "" →
        src.countP (fun l =>
          Backend.findCategory (Backend.mockEvents t0) l.ruleName == cat) = 0 := by
      intro cat hcat
      apply List.countP_eq_zero.mpr
      intro l hl
      have hfc := findCategory_not_found (Backend.mockEvents t0) l.ruleName (hsrc l hl)
      simp only [hfc, beq_iff_eq]
      exact fun hh => hcat hh.symm
    simp only [Backend.summaryCountsOf]
    rw [hzero "access" (by decide), hzero "network" (by decide),
      hzero "threat" (by decide), hzero "uba" (by decide)]

/-- C4 witness: the priority order and the seed-list lookup at concrete rule
names — a name containing both "login" and "threat" is categorised access by
the DB-backed switch, while a non-seed name containing "access" gets the
empty category from the in-memory lookup. -/
theorem c4_witness :
    DB.categoryOf "Suspicious Login Threat" = "access" ∧
    Backend.findCategory (Backend.mockEvents 0) "custom access check" = "" :=
  ⟨(c4_category_amended.1 "Suspicious Login Threat").1 (by decide),
   c4_category_amended.2.1 0 "custom access check" (by decide)⟩

/-- C5 counterexample: a store whose single entry lies 48 hours before the
call time 1000180 still produces a timeline bucket count of 1 (its formatted
hour-minute coincides with a label), while no entry lies within the
trailing 24 hours. -/
theorem c5_counterexample :
    Backend.timelineTotal (Backend.timelineDataHandler 0 1000180 [sampleOldLogin]) = 1 ∧
    sampleOldLogin.timestamp ≤ 1000180 - 86400 ∧
    ([sampleOldLogin].filter (fun l => 1000180 - 86400 ≤ l.timestamp)).length = 0 := by
  decide

/-- C5 (amended): bucket membership is decided by formatted hour-minute
equality, not by age, so the timeline bucket counts summed over all 24
labels and 3 category series are bounded by the total number of considered
entries (not by the number within the trailing 24 hours). -/
theorem c5_timeline_bound_amended (t0 now : Int) (logs : List Backend.LogEntry) :
    Backend.timelineTotal (Backend.timelineDataHandler t0 now logs) ≤
      (Backend.sourceOf t0 logs).length :=
  timelineTotal_le_length t0 now (Backend.sourceOf t0 logs)

/-- C6 counterexample: an entry with the explicit urgency 4 (critical) and a
rule name outside the seed list is counted under `medium` (the rule-name
derivation's default), not under `critical`. -/
theorem c6_counterexample :
    sampleDash.urgency = 4 ∧
    (Dash.urgencyDataHandler 0 [sampleDash]).critical = 0 ∧
    (Dash.urgencyDataHandler 0 [sampleDash]).medium = 1 := by decide

/-- C6 (amended): the in-memory urgency histogram always derives the tier
from the rule name via the seed list (its result is invariant under any
rewrite of the entries' explicit urgency values), while the DB-backed
histogram always counts under the stored explicit urgency (its result is
invariant under any rewrite of the entries' rule names). -/
theorem c6_urgency_source_amended :
    (∀ (t0 : Int) (logs : List Dash.LogEntry) (f : Dash.LogEntry → Int),
      Dash.urgencyDataHandler t0 (logs.map (fun e => { e with urgency := f e })) =
        Dash.urgencyDataHandler t0 logs) ∧
    (∀ (now : Int) (logs : List Dash.LogEntry) (g : Dash.LogEntry → String),
      DB.GetUrgencyData now (logs.map (fun e => { e with rule := g e })) =
        DB.GetUrgencyData now logs) := by
  constructor
  · intro t0 logs f
    cases logs with
    | nil => rfl
    | cons a s =>
      simp only [Dash.urgencyDataHandler, List.map_cons, List.isEmpty_cons,
        Bool.false_eq_true, if_false, List.countP_cons, List.countP_map]
      rfl
  · intro now logs g
    simp only [DB.GetUrgencyData, List.filter_map, List.countP_map]
    rfl

/-- C7 counterexample: the filter string "192.168.1" is a substring of the
stored entry's source IP "192.168.1.100", yet the in-memory search returns
nothing (it compares source IPs for exact equality). -/
theorem c7_counterexample :
    GoStr.contains sampleEntry.sourceIP "192.168.1" = true ∧
    Backend.logSearchHandler "192.168.1" "" [sampleEntry] = [] := by decide

/-- C7 (amended): for the in-memory backend, a search with a non-empty
sourceIP filter (and no event filter) returns exactly the stored entries
whose sourceIP equals the filter string exactly. -/
theorem c7_search_amended (ip : String) (hip : ip ≠ "")
    (logs : List Backend.LogEntry) (e : Backend.LogEntry) :
    e ∈ Backend.logSearchHandler ip "" logs ↔ e ∈ logs ∧ e.sourceIP = ip := by
  simp [Backend.logSearchHandler, List.mem_filter, hip]

/-- C7 witness: the exact-match search at a concrete store and filter. -/
theorem c7_witness :
    sampleEntry ∈ Backend.logSearchHandler "192.168.1.100" "" [sampleEntry] ↔
      sampleEntry ∈ [sampleEntry] ∧ sampleEntry.sourceIP = "192.168.1.100" :=
  c7_search_amended "192.168.1.100" (by decide) [sampleEntry] sampleEntry

/-- C8: in every reachable store state each stored entry has a non-zero
timestamp and a non-empty level — ingestion normalises the entry before
appending, and appending is the only store mutation. -/
theorem c8_store_invariant (s : List Backend.LogEntry) (hs : Backend.Reachable s) :
    ∀ e ∈ s, e.timestamp ≠ 0 ∧ e.level ≠ "" := by
  induction hs with
  | nil => simp
  | ingest s e now hnow hr ih =>
    intro x hx
    rcases List.mem_append.1 hx with h | h
    · exact ih x h
    · have hx2 : x = Backend.normalizeEntry now e := by simpa using h
      subst hx2
      unfold Backend.normalizeEntry
      by_cases h1 : e.timestamp = 0 <;> by_cases h2 : e.level = "" <;>
        simp_all [Backend.normalizeEntry]

/-- C8 witness: ingesting the all-defaults entry at instant 5 yields a
stored entry satisfying the invariant. -/
theorem c8_witness :
    (Backend.normalizeEntry 5 ⟨0, "", "", "", "", []⟩).timestamp ≠ 0 ∧
    (Backend.normalizeEntry 5 ⟨0, "", "", "", "", []⟩).level ≠ "" :=
  c8_store_invariant _
    (Backend.Reachable.ingest [] ⟨0, "", "", "", "", []⟩ 5 (by decide) Backend.Reachable.nil)
    _ (by decide)

/-- C9: for every base count and every random source respecting the
`Intn(5)` contract, the sparkline has length exactly 10 and each element
lies in the interval from `count / 10` to `count / 10 + 4`. -/
theorem c9_sparkline_envelope (count : Nat) (draw : Nat → Nat)
    (h : ∀ i, i < 10 → draw i < 5) :
    (Backend.sparklineOf count draw).length = 10 ∧
    ∀ x ∈ Backend.sparklineOf count draw, count / 10 ≤ x ∧ x ≤ count / 10 + 4 := by
  constructor
  · simp [Backend.sparklineOf]
  · intro x hx
    simp only [Backend.sparklineOf, List.mem_map, List.mem_range] at hx
    obtain ⟨i, hi, rfl⟩ := hx
    have := h i hi
    omega

/-- C9 witness: the envelope at count 45 and the draw sequence i mod 5. -/
theorem c9_witness :
    (Backend.sparklineOf 45 (fun i => i % 5)).length = 10 ∧ (45 / 10 ≤ 4 ∧ 4 ≤ 45 / 10 + 4) :=
  ⟨(c9_sparkline_envelope 45 (fun i => i % 5) (fun i _ => Nat.mod_lt i (by decide))).1,
   (c9_sparkline_envelope 45 (fun i => i % 5) (fun i _ => Nat.mod_lt i (by decide))).2
     4 (by decide)⟩

/-- C10: the metrics export is internally consistent — the reported total is
the number of stored entries and the per-level counters sum to that same
total. -/
theorem c10_metrics_consistent (logs : List Backend.LogEntry) :
    Backend.metricsTotal logs = logs.length ∧
    ((Backend.metricsByLevel logs).map (fun kv => kv.2)).sum = Backend.metricsTotal logs := by
  refine ⟨rfl, ?_⟩
  have hc : ∀ lv : String,
      logs.countP (fun l => l.level == lv) = (logs.map (fun l => l.level)).count lv := by
    intro lv
    rw [List.count_eq_countP, List.countP_map]
    rfl
  calc ((Backend.metricsByLevel logs).map (fun kv => kv.2)).sum
      = (((logs.map (fun l => l.level)).dedup).map
          (fun lv => logs.countP (fun l => l.level == lv))).sum := by
        simp only [Backend.metricsByLevel, List.map_map]
        rfl
    _ = (((logs.map (fun l => l.level)).dedup).map
          (fun lv => (logs.map (fun l => l.level)).count lv)).sum := by
        congr 1
        apply List.map_congr_left
        intro lv _
        exact hc lv
    _ = (logs.map (fun l => l.level)).length := List.sum_map_count_dedup_eq_length _
    _ = Backend.metricsTotal logs := by simp [Backend.metricsTotal]
